import Mathlib

/-!
Shallow embedding of the FileReader implementation in
src/components/script/dom/filereader.rs, together with theorems settling
the specification claims about it.

Pure helpers (base64 formatting, encoding determination, text decoding)
are translated from FileReaderSharedFunctionality; the owner-side state
machine (read, Abort, the process_read* task replay functions) is
translated from the FileReader impl.  External collaborator crates
(encoding_rs, mime, base64) are modelled from their documented contracts
as restated by the specification; each such definition carries a doc
comment saying so.
-/

/-- The base64 alphabet of RFC 4648, as used by the base64 crate that
dataurl_format calls. -/
def base64_table : List Char :=
  "ABCDEFGHIJKLMNOPQRSTUVWXYZabcdefghijklmnopqrstuvwxyz0123456789+/".data

/-- Character for one 6-bit group. -/
def b64char (n : Nat) : Char := base64_table.getD n 'A'

/-- Modelled from the spec: the base64 collaborator crate used by the
source (base64::encode), standard RFC 4648 encoding with padding.
Input bytes are reduced modulo 256 as u8 values. -/
def base64_encode : List Nat → List Char
  | [] => []
  | [a] =>
    let a := a % 256
    [b64char (a / 4), b64char (a % 4 * 16), '=', '=']
  | [a, b] =>
    let a := a % 256
    let b := b % 256
    [b64char (a / 4), b64char (a % 4 * 16 + b / 16), b64char (b % 16 * 4), '=']
  | a :: b :: c :: rest =>
    let a := a % 256
    let b := b % 256
    let c := c % 256
    b64char (a / 4) :: b64char (a % 4 * 16 + b / 16) :: b64char (b % 16 * 4 + c / 64)
      :: b64char (c % 64) :: base64_encode rest

/-- FileReaderSharedFunctionality::dataurl_format from the source:
base64-encode the blob contents and wrap them in a data URL, with the
MIME type included only when it is non-empty. -/
def dataurl_format (blob_contents : List Nat) (blob_type : String) : String :=
  let base64 := String.mk (base64_encode blob_contents)
  if blob_type = "" then "data:base64," ++ base64
  else "data:" ++ blob_type ++ ";base64," ++ base64

/-- The text encodings needed by the claims.  The source uses the full
encoding_rs table; this embedding keeps the entries the specification
discusses (UTF-8 and the UTF-16 variants). -/
inductive TextEncoding
  | utf8
  | utf16le
  | utf16be
deriving DecidableEq

/-- ASCII lowercase of a character list. -/
def lower_chars (cs : List Char) : List Char := cs.map Char.toLower

/-- Split a character list at each occurrence of the separator,
accumulating the current piece in reverse. -/
def split_chars_aux (sep : Char) : List Char → List Char → List (List Char)
  | [], acc => [acc.reverse]
  | c :: rest, acc =>
    if c = sep then acc.reverse :: split_chars_aux sep rest []
    else split_chars_aux sep rest (c :: acc)

/-- Split a character list at each occurrence of the separator. -/
def split_chars (sep : Char) (cs : List Char) : List (List Char) :=
  split_chars_aux sep cs []

/-- Drop surrounding whitespace from a character list. -/
def trim_chars (cs : List Char) : List Char :=
  ((cs.dropWhile Char.isWhitespace).reverse.dropWhile Char.isWhitespace).reverse

/-- Modelled from the spec: the encoding-table lookup collaborator
(Encoding::for_label of encoding_rs), restricted to the labels the
specification exercises.  Lookup trims whitespace and is
case-insensitive as in the WHATWG encoding standard. -/
def for_label (label : String) : Option TextEncoding :=
  let l := lower_chars (trim_chars label.data)
  if l = "utf-8".data ∨ l = "utf8".data ∨ l = "unicode-1-1-utf-8".data then some .utf8
  else if l = "utf-16".data ∨ l = "utf-16le".data then some .utf16le
  else if l = "utf-16be".data then some .utf16be
  else none

/-- Modelled from the spec: the MIME parsing collaborator (the mime
crate).  Parses a media type of the form type/subtype with
semicolon-separated parameters and extracts the value of the charset
parameter; returns none when the essence is not a two-part media type or
no charset parameter is present. -/
def mime_charset (blob_type : String) : Option String :=
  match (split_chars ';' blob_type.data).map trim_chars with
  | [] => none
  | essence :: params =>
    if (split_chars '/' essence).length = 2 then
      params.findSome? fun p =>
        match split_chars '=' p with
        | [k, v] =>
          if lower_chars (trim_chars k) = "charset".data then
            some (String.mk (trim_chars v))
          else none
        | _ => none
    else none

/-- U+FFFD, the replacement character used by lossy decoding. -/
def replacement_char : Char := Char.ofNat 0xFFFD

/-- Handling of one leading byte of a UTF-8 sequence in the WHATWG
decoder: emitted characters plus the decoder state
(codepoint so far, bytes still needed, lower bound, upper bound). -/
def utf8_start_byte (b : Nat) : List Char × (Nat × Nat × Nat × Nat) :=
  if b ≤ 0x7F then ([Char.ofNat b], (0, 0, 0x80, 0xBF))
  else if 0xC2 ≤ b ∧ b ≤ 0xDF then ([], (b % 0x20, 1, 0x80, 0xBF))
  else if 0xE0 ≤ b ∧ b ≤ 0xEF then
    ([], (b % 0x10, 2, if b = 0xE0 then 0xA0 else 0x80, if b = 0xED then 0x9F else 0xBF))
  else if 0xF0 ≤ b ∧ b ≤ 0xF4 then
    ([], (b % 8, 3, if b = 0xF0 then 0x90 else 0x80, if b = 0xF4 then 0x8F else 0xBF))
  else ([replacement_char], (0, 0, 0x80, 0xBF))

/-- Main loop of the WHATWG UTF-8 decoder with lossy replacement. -/
def utf8_go : (Nat × Nat × Nat × Nat) → List Nat → List Char
  | (_, needed, _, _), [] => if needed = 0 then [] else [replacement_char]
  | (cp, needed, lower, upper), b :: rest =>
    let b := b % 256
    if needed = 0 then
      let p := utf8_start_byte b
      p.1 ++ utf8_go p.2 rest
    else if lower ≤ b ∧ b ≤ upper then
      let cp := cp * 64 + (b - 0x80)
      if needed = 1 then Char.ofNat cp :: utf8_go (0, 0, 0x80, 0xBF) rest
      else utf8_go (cp, needed - 1, 0x80, 0xBF) rest
    else
      let p := utf8_start_byte b
      replacement_char :: (p.1 ++ utf8_go p.2 rest)

/-- Modelled from the spec: lossy UTF-8 decoding as done by the
encoding_rs decode collaborator — invalid sequences become replacement
characters, never an error. -/
def utf8_lossy_decode (bytes : List Nat) : String :=
  String.mk (utf8_go (0, 0, 0x80, 0xBF) bytes)

/-- Group a byte list into little-endian 16-bit code units; the Bool
records whether a lone trailing byte was left over. -/
def utf16_units_le : List Nat → List Nat × Bool
  | [] => ([], false)
  | [_] => ([], true)
  | a :: b :: rest =>
    let p := utf16_units_le rest
    (((b % 256) * 256 + a % 256) :: p.1, p.2)

/-- Group a byte list into big-endian 16-bit code units; the Bool
records whether a lone trailing byte was left over. -/
def utf16_units_be : List Nat → List Nat × Bool
  | [] => ([], false)
  | [_] => ([], true)
  | a :: b :: rest =>
    let p := utf16_units_be rest
    (((a % 256) * 256 + b % 256) :: p.1, p.2)

/-- Combine 16-bit code units into characters, pairing surrogates and
replacing lone surrogates with the replacement character. -/
def utf16_chars : List Nat → List Char
  | [] => []
  | u :: rest =>
    if u < 0xD800 ∨ 0xDFFF < u then Char.ofNat u :: utf16_chars rest
    else if u < 0xDC00 then
      match rest with
      | [] => [replacement_char]
      | v :: rest2 =>
        if 0xDC00 ≤ v ∧ v ≤ 0xDFFF then
          Char.ofNat (0x10000 + (u - 0xD800) * 1024 + (v - 0xDC00)) :: utf16_chars rest2
        else replacement_char :: utf16_chars (v :: rest2)
    else replacement_char :: utf16_chars rest

/-- Modelled from the spec: lossy UTF-16LE decoding collaborator. -/
def utf16le_decode (bytes : List Nat) : String :=
  let p := utf16_units_le bytes
  String.mk (utf16_chars p.1 ++ if p.2 then [replacement_char] else [])

/-- Modelled from the spec: lossy UTF-16BE decoding collaborator. -/
def utf16be_decode (bytes : List Nat) : String :=
  let p := utf16_units_be bytes
  String.mk (utf16_chars p.1 ++ if p.2 then [replacement_char] else [])

/-- Modelled from the spec: the decode collaborator of encoding_rs
(enc.decode), lossy decoding for each supported encoding. -/
def decode_bytes : TextEncoding → List Nat → String
  | .utf8, bs => utf8_lossy_decode bs
  | .utf16le, bs => utf16le_decode bs
  | .utf16be, bs => utf16be_decode bs

/-- Steps 1 through 6 of FileReaderSharedFunctionality::text_decode from
the source: the label lookup wins, otherwise the charset parameter of
the MIME type, otherwise UTF-8. -/
def encoding_determination (blob_type : String) (blob_label : Option String) : TextEncoding :=
  let encoding := blob_label.bind fun s => for_label s
  let encoding :=
    match encoding with
    | some e => some e
    | none => (mime_charset blob_type).bind for_label
  encoding.getD .utf8

/-- FileReaderSharedFunctionality::text_decode from the source:
determine the encoding, then decode the blob contents with it. -/
def text_decode (blob_contents : List Nat) (blob_type : String)
    (blob_label : Option String) : String :=
  decode_bytes (encoding_determination blob_type blob_label) blob_contents

/-- FileReaderFunction from the source: which read operation was
requested. -/
inductive FileReaderFunction
  | ReadAsText
  | ReadAsDataUrl
  | ReadAsArrayBuffer
deriving DecidableEq

/-- ReadMetaData from the source: blob MIME type, optional encoding
label, and the requested operation. -/
structure ReadMetaData where
  blobtype : String
  label : Option String
  function : FileReaderFunction
deriving DecidableEq

/-- FileReaderReadyState from the source. -/
inductive FileReaderReadyState
  | Empty
  | Loading
  | Done
deriving DecidableEq

/-- FileReaderResult from the source: either an array buffer built from
the blob bytes or a decoded string.  The Heap of JSVal holding the
buffer is represented by the bytes it was created from. -/
inductive FileReaderResult
  | ArrayBuffer (bytes : List Nat)
  | String (s : String)
deriving DecidableEq

/-- The DOMErrorName values reachable from this file: AbortError is
raised by Abort, the others may arrive through process_read_error. -/
inductive DOMErrorName
  | AbortError
  | NotFoundError
  | NotReadableError
  | SecurityError
deriving DecidableEq

/-- The bindings error type as used here: read returns InvalidState when
called while a read is in flight. -/
inductive DomError
  | InvalidState
deriving DecidableEq

/-- 2 to the 32nd: the modulus of u32 arithmetic, used by the
GenerationId counter. -/
def u32_mod : Nat := 4294967296

/-- Owner-side state of a FileReader, from the source struct: ready
state, error, result and the generation counter (a u32, kept as a Nat
reduced modulo u32_mod on increment). -/
structure FileReader where
  ready_state : FileReaderReadyState
  error : Option DOMErrorName
  result : Option FileReaderResult
  generation_id : Nat
deriving DecidableEq

/-- FileReader::new_inherited from the source: empty state, no error,
no result, generation zero. -/
def FileReader.new_inherited : FileReader :=
  ⟨.Empty, none, none, 0⟩

/-- FileReader::change_ready_state from the source. -/
def FileReader.change_ready_state (fr : FileReader) (state : FileReaderReadyState) :
    FileReader :=
  { fr with ready_state := state }

/-- FileReader::terminate_ongoing_reading from the source: increment the
generation counter (u32 wrap-around modelled by the modulus). -/
def FileReader.terminate_ongoing_reading (fr : FileReader) : FileReader :=
  { fr with generation_id := (fr.generation_id + 1) % u32_mod }

/-- The blob collaborator as consumed by read: a byte snapshot that may
fail to materialize, and a declared MIME type. -/
structure Blob where
  get_bytes : Option (List Nat)
  type_ : String
deriving DecidableEq

/-- The data handed to the spawned worker thread by read: the captured
generation, the read metadata and the byte snapshot. -/
structure ReadOperation where
  gen_id : Nat
  data : ReadMetaData
  blob_contents : List Nat
deriving DecidableEq

/-- FileReader::process_read from the source: on a stale generation do
nothing, otherwise emit loadstart.  Each process function returns the
updated reader state paired with the list of signals dispatched. -/
def process_read (fr : FileReader) (gen_id : Nat) : FileReader × List String :=
  if gen_id ≠ fr.generation_id then (fr, [])
  else (fr, ["loadstart"])

/-- FileReader::process_read_data from the source: on a stale generation
do nothing, otherwise emit progress. -/
def process_read_data (fr : FileReader) (gen_id : Nat) : FileReader × List String :=
  if gen_id ≠ fr.generation_id then (fr, [])
  else (fr, ["progress"])

/-- FileReader::process_read_error from the source: on a stale
generation do nothing; otherwise set Done, clear result, set the error,
emit error then loadend (re-checking the guard as the source does), then
increment the generation. -/
def process_read_error (fr : FileReader) (gen_id : Nat) (error : DOMErrorName) :
    FileReader × List String :=
  if gen_id ≠ fr.generation_id then (fr, [])
  else
    let fr := fr.change_ready_state .Done
    let fr := { fr with result := none }
    let fr := { fr with error := some error }
    if gen_id ≠ fr.generation_id then (fr, ["error"])
    else if gen_id ≠ fr.generation_id then (fr, ["error", "loadend"])
    else (fr.terminate_ongoing_reading, ["error", "loadend"])

/-- FileReader::perform_readastext from the source. -/
def perform_readastext (data : ReadMetaData) (blob_bytes : List Nat) : FileReaderResult :=
  .String (text_decode blob_bytes data.blobtype data.label)

/-- FileReader::perform_readasdataurl from the source. -/
def perform_readasdataurl (data : ReadMetaData) (bytes : List Nat) : FileReaderResult :=
  .String (dataurl_format bytes data.blobtype)

/-- FileReader::perform_readasarraybuffer from the source: the created
JS array buffer is represented by the bytes it holds. -/
def perform_readasarraybuffer (bytes : List Nat) : FileReaderResult :=
  .ArrayBuffer bytes

/-- FileReader::process_read_eof from the source: on a stale generation
do nothing; otherwise set Done, store the decoded result per the
requested function, emit load, re-check the guard, emit loadend when the
ready state is no longer Loading, re-check the guard, then increment the
generation. -/
def process_read_eof (fr : FileReader) (gen_id : Nat) (data : ReadMetaData)
    (blob_contents : List Nat) : FileReader × List String :=
  if gen_id ≠ fr.generation_id then (fr, [])
  else
    let fr := fr.change_ready_state .Done
    let fr :=
      match data.function with
      | .ReadAsDataUrl => { fr with result := some (perform_readasdataurl data blob_contents) }
      | .ReadAsText => { fr with result := some (perform_readastext data blob_contents) }
      | .ReadAsArrayBuffer =>
        { fr with result := some (perform_readasarraybuffer blob_contents) }
    if gen_id ≠ fr.generation_id then (fr, ["load"])
    else
      let events := if fr.ready_state ≠ .Loading then ["load", "loadend"] else ["load"]
      if gen_id ≠ fr.generation_id then (fr, events)
      else (fr.terminate_ongoing_reading, events)

/-- FileReader::Abort from the source: set Done only when Loading, then
unconditionally clear result, set an AbortError, increment the
generation, and dispatch abort then loadend synchronously. -/
def FileReader.Abort (fr : FileReader) : FileReader × List String :=
  let fr := if fr.ready_state = .Loading then fr.change_ready_state .Done else fr
  let fr := { fr with result := none }
  let fr := { fr with error := some .AbortError }
  let fr := fr.terminate_ongoing_reading
  (fr, ["abort", "loadend"])

/-- FileReader::read from the source: reject with InvalidState while
Loading; otherwise set Loading, snapshot the blob bytes (an empty buffer
when the snapshot fails), build the metadata, capture the generation and
hand everything to the spawned worker.  The spawned ReadOperation is
returned alongside the new state. -/
def FileReader.read (fr : FileReader) (function : FileReaderFunction) (blob : Blob)
    (label : Option String) : Except DomError (FileReader × ReadOperation) :=
  if fr.ready_state = .Loading then .error .InvalidState
  else
    let fr := fr.change_ready_state .Loading
    let blob_contents := blob.get_bytes.getD []
    let load_data : ReadMetaData := ⟨blob.type_, label, function⟩
    let gen_id := fr.generation_id
    .ok (fr, ⟨gen_id, load_data, blob_contents⟩)

/-- FileReader::ReadAsArrayBuffer from the source. -/
def FileReader.ReadAsArrayBuffer (fr : FileReader) (blob : Blob) :
    Except DomError (FileReader × ReadOperation) :=
  fr.read .ReadAsArrayBuffer blob none

/-- FileReader::ReadAsDataURL from the source. -/
def FileReader.ReadAsDataURL (fr : FileReader) (blob : Blob) :
    Except DomError (FileReader × ReadOperation) :=
  fr.read .ReadAsDataUrl blob none

/-- FileReader::ReadAsText from the source. -/
def FileReader.ReadAsText (fr : FileReader) (blob : Blob) (label : Option String) :
    Except DomError (FileReader × ReadOperation) :=
  fr.read .ReadAsText blob label

/-- Modelled from the spec: the FileReadingTask enum lives in
task_source/file_reading.rs, outside src/; its variants are the
notification tasks named by the spec, replayed by the process functions
of this file.  The Trusted reader handle is implicit (tasks are replayed
against a reader state). -/
inductive FileReadingTask
  | ProcessRead (gen_id : Nat)
  | ProcessReadData (gen_id : Nat)
  | ProcessReadEOF (gen_id : Nat) (data : ReadMetaData) (blob_contents : List Nat)
  | ProcessReadError (gen_id : Nat) (error : DOMErrorName)
deriving DecidableEq

/-- The generation captured inside a notification task. -/
def task_gen : FileReadingTask → Nat
  | .ProcessRead g => g
  | .ProcessReadData g => g
  | .ProcessReadEOF g _ _ => g
  | .ProcessReadError g _ => g

/-- Replay one notification task against the owner state, as the task
queue handler does by calling the matching process function. -/
def run_task (fr : FileReader) : FileReadingTask → FileReader × List String
  | .ProcessRead g => process_read fr g
  | .ProcessReadData g => process_read_data fr g
  | .ProcessReadEOF g d b => process_read_eof fr g d b
  | .ProcessReadError g e => process_read_error fr g e

/-- Replay a FIFO list of notification tasks in order, collecting the
dispatched signals. -/
def run_tasks (fr : FileReader) : List FileReadingTask → FileReader × List String
  | [] => (fr, [])
  | t :: ts =>
    let p := run_task fr t
    let q := run_tasks p.1 ts
    (q.1, p.2 ++ q.2)

/-- perform_annotated_read_operation from the source: the worker
enqueues exactly these three tasks, in this order. -/
def perform_annotated_read_operation (gen_id : Nat) (data : ReadMetaData)
    (blob_contents : List Nat) : List FileReadingTask :=
  [.ProcessRead gen_id, .ProcessReadData gen_id, .ProcessReadEOF gen_id data blob_contents]

/-- C1: replaying any notification task whose captured generation
differs from the current generation_id is a complete no-op — the state
(ready_state, result, error, generation_id) is returned unchanged and no
signal is emitted; in particular the completion task of an operation
superseded by Abort during Loading leaves the post-abort state, and in
particular its result field, untouched. -/
theorem c1_stale_task_noop :
    (∀ (fr : FileReader) (t : FileReadingTask),
        task_gen t ≠ fr.generation_id → run_task fr t = (fr, [])) ∧
    (∀ (fr : FileReader) (d : ReadMetaData) (b : List Nat),
        fr.ready_state = .Loading →
          run_task fr.Abort.1 (.ProcessReadEOF fr.generation_id d b) = (fr.Abort.1, [])) := by
  constructor
  · intro fr t h
    cases t <;>
      simp only [task_gen] at h <;>
      simp [run_task, process_read, process_read_data, process_read_eof, process_read_error, h]
  · intro fr d b h
    have hg : fr.generation_id ≠ fr.Abort.1.generation_id := by
      simp [FileReader.Abort, h, FileReader.change_ready_state,
        FileReader.terminate_ongoing_reading, u32_mod]
      omega
    simp [run_task, process_read_eof, hg]

/-- Witness for C1 at concrete inputs: a ProcessRead task carrying
generation 5 replayed against a reader at generation 0 does nothing, and
the completion of a read aborted at generation 3 does nothing. -/
theorem c1_stale_task_noop_witness :
    run_task ⟨.Empty, none, none, 0⟩ (.ProcessRead 5) = (⟨.Empty, none, none, 0⟩, []) ∧
    run_task (FileReader.Abort ⟨.Loading, none, none, 3⟩).1
        (.ProcessReadEOF 3 ⟨"", none, .ReadAsText⟩ []) =
      ((FileReader.Abort ⟨.Loading, none, none, 3⟩).1, []) :=
  ⟨c1_stale_task_noop.1 ⟨.Empty, none, none, 0⟩ (.ProcessRead 5) (by decide),
   c1_stale_task_noop.2 ⟨.Loading, none, none, 3⟩ ⟨"", none, .ReadAsText⟩ [] rfl⟩

/-- C2 counterexample: after an Abort (which leaves error set to
AbortError) a new read starts without clearing error, and its delivered
completion stores a result while error is still set — result and error
are then both non-empty, refuting the claimed exclusivity. -/
theorem c2_counterexample :
    FileReader.read (FileReader.Abort FileReader.new_inherited).1 .ReadAsDataUrl
        ⟨some [65], "text/plain"⟩ none =
      .ok (⟨.Loading, some .AbortError, none, 1⟩,
           ⟨1, ⟨"text/plain", none, .ReadAsDataUrl⟩, [65]⟩) ∧
    (process_read_eof ⟨.Loading, some .AbortError, none, 1⟩ 1
        ⟨"text/plain", none, .ReadAsDataUrl⟩ [65]).1.result.isSome = true ∧
    (process_read_eof ⟨.Loading, some .AbortError, none, 1⟩ 1
        ⟨"text/plain", none, .ReadAsDataUrl⟩ [65]).1.error.isSome = true :=
  ⟨rfl, rfl, rfl⟩

/-- C2 (amended): a delivered error sets Done, clears result and sets
error; an Abort during Loading sets Done, clears result and sets
AbortError; a delivered completion sets Done and stores a result but
leaves error exactly as it was, so result and error are mutually
exclusive only when error was empty when the completion arrived. -/
theorem c2_amended_exclusivity :
    (∀ (fr : FileReader) (e : DOMErrorName),
        (process_read_error fr fr.generation_id e).1.ready_state = .Done ∧
        (process_read_error fr fr.generation_id e).1.result = none ∧
        (process_read_error fr fr.generation_id e).1.error = some e) ∧
    (∀ fr : FileReader, fr.ready_state = .Loading →
        fr.Abort.1.ready_state = .Done ∧ fr.Abort.1.result = none ∧
        fr.Abort.1.error = some .AbortError) ∧
    (∀ (fr : FileReader) (d : ReadMetaData) (b : List Nat),
        (process_read_eof fr fr.generation_id d b).1.ready_state = .Done ∧
        (process_read_eof fr fr.generation_id d b).1.result.isSome = true ∧
        (process_read_eof fr fr.generation_id d b).1.error = fr.error) ∧
    (∀ (fr : FileReader) (d : ReadMetaData) (b : List Nat), fr.error = none →
        (process_read_eof fr fr.generation_id d b).1.result.isSome = true ∧
        (process_read_eof fr fr.generation_id d b).1.error = none) := by
  refine ⟨?_, ?_, ?_, ?_⟩
  · intro fr e
    simp [process_read_error, FileReader.change_ready_state,
      FileReader.terminate_ongoing_reading]
  · intro fr h
    simp [FileReader.Abort, h, FileReader.change_ready_state,
      FileReader.terminate_ongoing_reading]
  · intro fr d b
    cases hf : d.function <;>
      simp [process_read_eof, hf, FileReader.change_ready_state,
        FileReader.terminate_ongoing_reading]
  · intro fr d b h
    cases hf : d.function <;>
      simp [process_read_eof, hf, h, FileReader.change_ready_state,
        FileReader.terminate_ongoing_reading]

/-- Witness for the amended C2 at concrete inputs: aborting a loading
reader gives Done with a cleared result and an AbortError, and a
completion delivered with no pending error stores a result with error
still empty. -/
theorem c2_amended_exclusivity_witness :
    ((FileReader.Abort ⟨.Loading, none, none, 0⟩).1.ready_state = .Done ∧
     (FileReader.Abort ⟨.Loading, none, none, 0⟩).1.result = none ∧
     (FileReader.Abort ⟨.Loading, none, none, 0⟩).1.error = some .AbortError) ∧
    ((process_read_eof ⟨.Loading, none, none, 0⟩ 0 ⟨"", none, .ReadAsText⟩ []).1.result.isSome
        = true ∧
     (process_read_eof ⟨.Loading, none, none, 0⟩ 0 ⟨"", none, .ReadAsText⟩ []).1.error
        = none) :=
  ⟨c2_amended_exclusivity.2.1 ⟨.Loading, none, none, 0⟩ rfl,
   c2_amended_exclusivity.2.2.2 ⟨.Loading, none, none, 0⟩ ⟨"", none, .ReadAsText⟩ [] rfl⟩

/-- C3: every read entry point invoked while ready_state is Loading
returns the InvalidState error; the returned value carries no new state
and no spawned operation, so the reader is left untouched. -/
theorem c3_read_while_loading :
    ∀ (fr : FileReader) (blob : Blob) (label : Option String),
      fr.ready_state = .Loading →
        fr.ReadAsText blob label = .error .InvalidState ∧
        fr.ReadAsDataURL blob = .error .InvalidState ∧
        fr.ReadAsArrayBuffer blob = .error .InvalidState := by
  intro fr blob label h
  refine ⟨?_, ?_, ?_⟩ <;>
    simp [FileReader.ReadAsText, FileReader.ReadAsDataURL, FileReader.ReadAsArrayBuffer,
      FileReader.read, h]

/-- Witness for C3 at a concrete loading reader. -/
theorem c3_read_while_loading_witness :
    FileReader.ReadAsText ⟨.Loading, none, none, 0⟩ ⟨some [], ""⟩ none
        = .error .InvalidState ∧
    FileReader.ReadAsDataURL ⟨.Loading, none, none, 0⟩ ⟨some [], ""⟩
        = .error .InvalidState ∧
    FileReader.ReadAsArrayBuffer ⟨.Loading, none, none, 0⟩ ⟨some [], ""⟩
        = .error .InvalidState :=
  c3_read_while_loading ⟨.Loading, none, none, 0⟩ ⟨some [], ""⟩ none rfl

/-- C4: a successful read whose three tasks are then replayed without
interference emits exactly loadstart, progress, load, loadend in that
order; an Abort emits exactly abort, loadend; an error delivery with a
matching generation emits exactly error, loadend. -/
theorem c4_signal_ordering :
    (∀ (fr : FileReader) (f : FileReaderFunction) (blob : Blob) (label : Option String)
        (fr2 : FileReader) (op : ReadOperation),
        fr.read f blob label = .ok (fr2, op) →
          (run_tasks fr2 (perform_annotated_read_operation op.gen_id op.data
            op.blob_contents)).2 = ["loadstart", "progress", "load", "loadend"]) ∧
    (∀ fr : FileReader, fr.Abort.2 = ["abort", "loadend"]) ∧
    (∀ (fr : FileReader) (e : DOMErrorName),
        (process_read_error fr fr.generation_id e).2 = ["error", "loadend"]) := by
  refine ⟨?_, ?_, ?_⟩
  · intro fr f blob label fr2 op h
    by_cases hl : fr.ready_state = .Loading
    · simp [FileReader.read, hl] at h
    · simp [FileReader.read, hl] at h
      obtain ⟨hfr2, hop⟩ := h
      subst hfr2
      subst hop
      cases f <;>
        simp [run_tasks, run_task, perform_annotated_read_operation, process_read,
          process_read_data, process_read_eof, FileReader.change_ready_state,
          FileReader.terminate_ongoing_reading]
  · intro fr
    simp [FileReader.Abort]
  · intro fr e
    simp [process_read_error, FileReader.change_ready_state]

/-- Witness for C4: the three tasks of a concrete fresh read replayed in
order emit the four success signals. -/
theorem c4_signal_ordering_witness :
    (run_tasks ⟨.Loading, none, none, 0⟩
        (perform_annotated_read_operation 0 ⟨"text/plain", none, .ReadAsText⟩ [65])).2 =
      ["loadstart", "progress", "load", "loadend"] :=
  c4_signal_ordering.1 FileReader.new_inherited .ReadAsText ⟨some [65], "text/plain"⟩ none
    ⟨.Loading, none, none, 0⟩ ⟨0, ⟨"text/plain", none, .ReadAsText⟩, [65]⟩ rfl

/-- C5 counterexample: a successful read started on a reader whose
result still holds a value leaves that value in place — read never
clears the result field, refuting the claim that every successful start
clears it. -/
theorem c5_counterexample :
    FileReader.read ⟨.Done, none, some (.String "stale"), 7⟩ .ReadAsText ⟨some [], ""⟩ none =
      .ok (⟨.Loading, none, some (.String "stale"), 7⟩, ⟨7, ⟨"", none, .ReadAsText⟩, []⟩) ∧
    (some (FileReaderResult.String "stale") ≠ (none : Option FileReaderResult)) :=
  ⟨rfl, by simp⟩

/-- C5 (amended): result is cleared by Abort and by a delivered error
notification, but a successful read leaves result exactly as it was —
the previous value stays visible until the new operation delivers a
completion that overwrites it. -/
theorem c5_amended_result_clearing :
    (∀ fr : FileReader, fr.Abort.1.result = none) ∧
    (∀ (fr : FileReader) (e : DOMErrorName),
        (process_read_error fr fr.generation_id e).1.result = none) ∧
    (∀ (fr : FileReader) (f : FileReaderFunction) (blob : Blob) (label : Option String)
        (fr2 : FileReader) (op : ReadOperation),
        fr.read f blob label = .ok (fr2, op) → fr2.result = fr.result) := by
  refine ⟨?_, ?_, ?_⟩
  · intro fr
    simp [FileReader.Abort, FileReader.change_ready_state,
      FileReader.terminate_ongoing_reading]
  · intro fr e
    simp [process_read_error, FileReader.change_ready_state,
      FileReader.terminate_ongoing_reading]
  · intro fr f blob label fr2 op h
    by_cases hl : fr.ready_state = .Loading
    · simp [FileReader.read, hl] at h
    · simp [FileReader.read, hl] at h
      obtain ⟨hfr2, hop⟩ := h
      subst hfr2
      simp [FileReader.change_ready_state]

/-- Witness for the amended C5: a concrete successful read preserves the
stale result value. -/
theorem c5_amended_result_clearing_witness :
    (⟨.Loading, none, some (.String "stale"), 7⟩ : FileReader).result =
      (⟨.Done, none, some (.String "stale"), 7⟩ : FileReader).result :=
  c5_amended_result_clearing.2.2 ⟨.Done, none, some (.String "stale"), 7⟩ .ReadAsText
    ⟨some [], ""⟩ none ⟨.Loading, none, some (.String "stale"), 7⟩
    ⟨7, ⟨"", none, .ReadAsText⟩, []⟩ rfl

/-- C6: when the reader is not Loading and the blob byte snapshot fails,
read still succeeds: it returns Ok, moves to Loading, and hands the
worker the empty byte buffer with the usual metadata — the byte-source
failure is never propagated to the caller. -/
theorem c6_bytes_failure_empty_snapshot :
    ∀ (fr : FileReader) (f : FileReaderFunction) (blob : Blob) (label : Option String),
      fr.ready_state ≠ .Loading → blob.get_bytes = none →
        fr.read f blob label =
          .ok ({ fr with ready_state := .Loading },
               ⟨fr.generation_id, ⟨blob.type_, label, f⟩, []⟩) := by
  intro fr f blob label h hb
  simp [FileReader.read, h, hb, FileReader.change_ready_state]

/-- Witness for C6 at a concrete reader and failing blob. -/
theorem c6_bytes_failure_empty_snapshot_witness :
    FileReader.read FileReader.new_inherited .ReadAsDataUrl ⟨none, "text/plain"⟩ none =
      .ok ({ FileReader.new_inherited with ready_state := .Loading },
           ⟨0, ⟨"text/plain", none, .ReadAsDataUrl⟩, []⟩) :=
  c6_bytes_failure_empty_snapshot FileReader.new_inherited .ReadAsDataUrl
    ⟨none, "text/plain"⟩ none (by decide) rfl

/-- C7: encoding resolution precedence — a label that resolves in the
encoding table always wins; otherwise a charset parameter of the MIME
type that resolves wins; otherwise UTF-8; and concretely, with label
utf-16 against MIME text/plain;charset=utf-8 the label wins and UTF-16LE
decoding is the one applied. -/
theorem c7_encoding_precedence :
    (∀ (label blob_type : String) (e : TextEncoding),
        for_label label = some e → encoding_determination blob_type (some label) = e) ∧
    (∀ (blob_label : Option String) (blob_type cs : String) (e : TextEncoding),
        blob_label.bind for_label = none → mime_charset blob_type = some cs →
        for_label cs = some e → encoding_determination blob_type blob_label = e) ∧
    (∀ (blob_label : Option String) (blob_type : String),
        blob_label.bind for_label = none →
        (mime_charset blob_type).bind for_label = none →
          encoding_determination blob_type blob_label = .utf8) ∧
    encoding_determination "text/plain;charset=utf-8" (some "utf-16") = .utf16le ∧
    (∀ bytes : List Nat,
        text_decode bytes "text/plain;charset=utf-8" (some "utf-16")
          = utf16le_decode bytes) := by
  refine ⟨?_, ?_, ?_, by decide, ?_⟩
  · intro label blob_type e h
    simp [encoding_determination, h]
  · intro blob_label blob_type cs e h1 h2 h3
    simp [encoding_determination, h1, h2, h3]
  · intro blob_label blob_type h1 h2
    simp [encoding_determination, h1, h2]
  · intro bytes
    have h : encoding_determination "text/plain;charset=utf-8" (some "utf-16")
        = .utf16le := by decide
    simp [text_decode, h, decode_bytes]

/-- Witness for C7 at concrete inputs: the label branch, the charset
branch and the UTF-8 default each fire as claimed. -/
theorem c7_encoding_precedence_witness :
    encoding_determination "x" (some "utf-16") = .utf16le ∧
    encoding_determination "text/plain;charset=utf-8" none = .utf8 ∧
    encoding_determination "" none = .utf8 :=
  ⟨c7_encoding_precedence.1 "utf-16" "x" .utf16le (by decide),
   c7_encoding_precedence.2.1 none "text/plain;charset=utf-8" "utf-8" .utf8 rfl
     (by decide) (by decide),
   c7_encoding_precedence.2.2.1 none "" rfl rfl⟩

/-- C8: the data URL formatter produces data:base64,(b64) for an empty
MIME type and data:(mime);base64,(b64) otherwise, and on the concrete
bytes 0x41 0x42 produces the two quoted strings. -/
theorem c8_dataurl_format :
    (∀ (b : List Nat) (m : String),
        dataurl_format b m =
          if m = "" then "data:base64," ++ String.mk (base64_encode b)
          else "data:" ++ m ++ ";base64," ++ String.mk (base64_encode b)) ∧
    dataurl_format [0x41, 0x42] "text/plain" = "data:text/plain;base64,QUI=" ∧
    dataurl_format [0x41, 0x42] "" = "data:base64,QUI=" :=
  ⟨fun _ _ => rfl, by decide, by decide⟩

/-- C9: text decoding is total — when neither the label nor a charset
parameter resolves, UTF-8 is used, and decoding always returns a string
with invalid byte sequences replaced by the replacement character rather
than failing, as the concrete invalid inputs show. -/
theorem c9_text_decode_total_default_utf8 :
    (∀ (bytes : List Nat) (blob_type : String) (blob_label : Option String),
        blob_label.bind for_label = none →
        (mime_charset blob_type).bind for_label = none →
          text_decode bytes blob_type blob_label = utf8_lossy_decode bytes) ∧
    text_decode [0xFF] "" none = String.mk [replacement_char] ∧
    text_decode [0x41, 0xFF, 0x42] "" none =
      String.mk [Char.ofNat 0x41, replacement_char, Char.ofNat 0x42] := by
  refine ⟨?_, by decide, by decide⟩
  intro bytes blob_type blob_label h1 h2
  simp [text_decode, encoding_determination, h1, h2, decode_bytes]

/-- Witness for C9: a MIME type with no charset parameter and no label
decodes through UTF-8. -/
theorem c9_text_decode_total_default_utf8_witness :
    text_decode [0x68, 0x69] "application/octet-stream" none
      = utf8_lossy_decode [0x68, 0x69] :=
  c9_text_decode_total_default_utf8.1 [0x68, 0x69] "application/octet-stream" none rfl rfl

/-- C10: Abort on a reader that is not Loading still performs every
post-check effect — result is cleared, error becomes AbortError, the
generation is incremented by one (modulo the u32 wrap), and abort then
loadend are emitted — while ready_state keeps its prior value, since
only the assignment to Done is conditional on Loading. -/
theorem c10_abort_outside_loading :
    ∀ fr : FileReader, fr.ready_state ≠ .Loading →
      fr.Abort.1.ready_state = fr.ready_state ∧
      fr.Abort.1.result = none ∧
      fr.Abort.1.error = some .AbortError ∧
      fr.Abort.1.generation_id = (fr.generation_id + 1) % u32_mod ∧
      (fr.generation_id + 1 < u32_mod → fr.Abort.1.generation_id = fr.generation_id + 1) ∧
      fr.Abort.2 = ["abort", "loadend"] := by
  intro fr h
  refine ⟨?_, ?_, ?_, ?_, ?_, ?_⟩ <;>
    simp [FileReader.Abort, h, FileReader.change_ready_state,
      FileReader.terminate_ongoing_reading]
  intro hlt
  exact Nat.mod_eq_of_lt hlt

/-- Witness for C10 at a concrete empty reader. -/
theorem c10_abort_outside_loading_witness :
    (FileReader.Abort ⟨.Empty, none, none, 0⟩).1.ready_state = .Empty ∧
    (FileReader.Abort ⟨.Empty, none, none, 0⟩).1.result = none ∧
    (FileReader.Abort ⟨.Empty, none, none, 0⟩).1.error = some .AbortError ∧
    (FileReader.Abort ⟨.Empty, none, none, 0⟩).1.generation_id = 1 ∧
    (FileReader.Abort ⟨.Empty, none, none, 0⟩).2 = ["abort", "loadend"] :=
  ⟨(c10_abort_outside_loading ⟨.Empty, none, none, 0⟩ (by decide)).1,
   (c10_abort_outside_loading ⟨.Empty, none, none, 0⟩ (by decide)).2.1,
   (c10_abort_outside_loading ⟨.Empty, none, none, 0⟩ (by decide)).2.2.1,
   (c10_abort_outside_loading ⟨.Empty, none, none, 0⟩ (by decide)).2.2.2.2.1 (by decide),
   (c10_abort_outside_loading ⟨.Empty, none, none, 0⟩ (by decide)).2.2.2.2.2⟩
